import Mathlib

/-!
Shallow embedding of `requesthandler/requesthandler.py`: a process-wide
singleton that accepts HTTP GET submissions (`get`), queues them as deferred
operations, and executes them from a scheduler loop (`_scheduler`) in
randomly sized batches with randomized inter-batch sleeps.  `configure`
(re)initializes the queue, transport session and scheduler task;
`shutdown` tears them down behind an idempotence guard;
`_register_shutdown_hooks` wires OS termination signals to `shutdown`.

Response bodies, transport error objects and URLs are opaque to the
dispatcher, so they are abstracted as `Nat` tokens.  One unit of the model's
RNG input corresponds to one call of `random.randint` / `random.choice`;
`randint lo hi r` reproduces Python's inclusive-bounds `random.randint`.
-/

namespace RequestHandler

/-- The fixed pool of client identity strings (`USER_AGENTS`, lines 10-31). -/
def USER_AGENTS : List String :=
  [
  "Mozilla/5.0 (Windows NT 10.0; Win64; x64) AppleWebKit/537.36 (KHTML, like Gecko) Chrome/123.0.6312.86 Safari/537.36",
  "Mozilla/5.0 (Macintosh; Intel Mac OS X 13_3_1) AppleWebKit/605.1.15 (KHTML, like Gecko) Version/16.4 Safari/605.1.15",
  "Mozilla/5.0 (X11; Ubuntu; Linux x86_64; rv:124.0) Gecko/20100101 Firefox/124.0",
  "Mozilla/5.0 (Linux; Android 13; Pixel 6) AppleWebKit/537.36 (KHTML, like Gecko) Chrome/123.0.6312.86 Mobile Safari/537.36",
  "Mozilla/5.0 (iPhone; CPU iPhone OS 16_4 like Mac OS X) AppleWebKit/605.1.15 (KHTML, like Gecko) Version/16.4 Mobile/15E148 Safari/604.1",
  "Mozilla/5.0 (Windows NT 10.0; Win64; x64) AppleWebKit/537.36 (KHTML, like Gecko) Chrome/123.0.6312.86 Safari/537.36 Edg/123.0.2420.65",
  "Mozilla/5.0 (Macintosh; Intel Mac OS X 13_3_1) AppleWebKit/537.36 (KHTML, like Gecko) Chrome/123.0.6312.86 Safari/537.36 Brave/123.1.59.120"
  ]

/-- Python's `random.randint(lo, hi)`: a draw in the inclusive range
`[lo, hi]`, here driven by an explicit raw random value `r`. -/
def randint (lo hi r : Nat) : Nat := lo + r % (hi - lo + 1)

/-- An `aiohttp.ClientSession` handle: its identity and whether `close()`
has been observed (`session.closed`). -/
structure Sess where
  sid : Nat
  closed : Bool
deriving DecidableEq, Repr

/-- The scheduler `asyncio.Task` handle (`_scheduler_task`): its identity
and whether `cancel()` has been called on it. -/
structure TaskH where
  tid : Nat
  cancelled : Bool
deriving DecidableEq, Repr

/-- A deferred operation as enqueued by `get`: the id of its result future,
the target URL (opaque token), the chosen identity string and the `raw`
flag. -/
structure Pending where
  fid : Nat
  url : Nat
  agent : String
  raw : Bool
deriving DecidableEq, Repr

/-- The attribute state of the singleton `RequestHandler` instance.
Attributes that exist only after the first `configure()` (`queue`,
`session`, `_scheduler_task`, `_scheduler_loop`) are `Option`-valued:
`none` models the attribute being absent.  `_shutdown_started` is read
through `getattr(..., False)`, so a plain `Bool` defaulting to `false` is
faithful. -/
structure Handler where
  is_configured : Bool := false
  scheduler_loop : Option Nat := none
  shutdown_started : Bool := false
  queue : Option (List Pending) := none
  session : Option Sess := none
  scheduler_task : Option TaskH := none
  batch_size : Nat := 0
deriving DecidableEq, Repr

/-- The handler instance plus ghost observation counters: how many open
sessions and uncancelled scheduler tasks exist process-wide, and how many
`close()` calls, `cancel()` calls and full re-initializations have been
performed.  The counters record effects; they are never read by the
modelled code. -/
structure World where
  h : Handler
  liveSessions : Nat := 0
  liveTasks : Nat := 0
  cancelCalls : Nat := 0
  closeCalls : Nat := 0
  inits : Nat := 0
deriving DecidableEq, Repr

/-- The state of a freshly constructed instance: `__new__` only sets
`_is_configured = False`; no other attribute exists yet. -/
def initialWorld : World := { h := {} }

/-- The guard of `configure` (line 50):
`not self._is_configured or self._scheduler_loop != current_loop`.
(The short-circuit means `_scheduler_loop` is only read when the instance
has been configured, so the `Option` default never leaks.) -/
def needsInit (h : Handler) (cur : Nat) : Bool :=
  !h.is_configured || h.scheduler_loop != some cur

/-- The teardown block of `configure` (lines 51-58): when a previous
`_scheduler_task` exists, `await self.session.close()` then cancel and
await the old task, swallowing its `CancelledError`. -/
def retireOld (w : World) : World :=
  match w.h.scheduler_task with
  | none => w
  | some t =>
    let w1 : World :=
      match w.h.session with
      | some s =>
        { w with
          h := { w.h with session := some { s with closed := true } },
          closeCalls := w.closeCalls + 1,
          liveSessions := if s.closed then w.liveSessions else w.liveSessions - 1 }
      | none => w
    { w1 with
      h := { w1.h with scheduler_task := some { t with cancelled := true } },
      cancelCalls := w1.cancelCalls + 1,
      liveTasks := if t.cancelled then w1.liveTasks else w1.liveTasks - 1 }

/-- `configure()` (lines 46-70) under the running loop `cur`: when
`needsInit` holds, retire the previous session and task, then install a
fresh queue, a fresh session, a batch size drawn by `random.randint(3, 5)`
(raw draw `r`), a fresh scheduler task, record the current loop, mark
configured and clear the shutdown guard.  Otherwise do nothing.  `fresh`
names the identity of the newly created session and task.  Shutdown-hook
registration (line 64) touches no handler attribute and is modelled
separately by `register_shutdown_hooks`. -/
def configure (w : World) (cur r fresh : Nat) : World :=
  if needsInit w.h cur then
    let w1 := retireOld w
    { w1 with
      h :=
        { is_configured := true,
          scheduler_loop := some cur,
          shutdown_started := false,
          queue := some [],
          session := some ⟨fresh, false⟩,
          scheduler_task := some ⟨fresh, false⟩,
          batch_size := randint 3 5 r },
      liveSessions := w1.liveSessions + 1,
      liveTasks := w1.liveTasks + 1,
      inits := w1.inits + 1 }
  else w

/-- `shutdown()` (lines 160-175): return immediately when
`_shutdown_started` is already set; otherwise set it, cancel the scheduler
task when the attribute exists (awaiting it and swallowing
`CancelledError`), then close the session when it exists and is not
already closed. -/
def shutdown (w : World) : World :=
  if w.h.shutdown_started then w
  else
    let w1 : World := { w with h := { w.h with shutdown_started := true } }
    let w2 : World :=
      match w1.h.scheduler_task with
      | some t =>
        { w1 with
          h := { w1.h with scheduler_task := some { t with cancelled := true } },
          cancelCalls := w1.cancelCalls + 1,
          liveTasks := if t.cancelled then w1.liveTasks else w1.liveTasks - 1 }
      | none => w1
    match w2.h.session with
    | some s =>
      if s.closed then w2
      else
        { w2 with
          h := { w2.h with session := some { s with closed := true } },
          closeCalls := w2.closeCalls + 1,
          liveSessions := w2.liveSessions - 1 }
    | none => w2

/-- Exceptions the submission path can raise. -/
inductive PyErr where
  | notConfigured
  | attrError
deriving DecidableEq, Repr

/-- `random.choice(self.USER_AGENTS)` (line 118), driven by raw draw `r`. -/
def chooseAgent (r : Nat) : String :=
  USER_AGENTS.getD (r % USER_AGENTS.length) default

/-- The submission half of `get(url, raw)` (lines 114-158): raise
`RuntimeError` (the "not configured" error) before doing anything else
when `_is_configured` is false; otherwise choose an identity string by
`random.choice(USER_AGENTS)` (raw draw `r`), create a fresh future
(id `fid`), and `put_nowait` the deferred operation onto the queue.  An
`.ok p` result means `p` was enqueued and the caller is now awaiting the
future `p.fid`; the execution of the operation is modelled by `fetch` and
`schedulerRun`. -/
def get (w : World) (url : Nat) (raw : Bool) (r fid : Nat) :
    World × Except PyErr Pending :=
  if !w.h.is_configured then (w, .error .notConfigured)
  else
    let p : Pending := ⟨fid, url, chooseAgent r, raw⟩
    match w.h.queue with
    | some q => ({ w with h := { w.h with queue := some (q ++ [p]) } }, .ok p)
    | none => (w, .error .attrError)

/-- Resource accounting invariant: the handler's session and task handles
are the only live resources (no leaked session or scheduler task outside
the singleton's attributes), and the two attributes are created together. -/
def Inv (w : World) : Prop :=
  w.liveTasks = (match w.h.scheduler_task with
                 | some t => if t.cancelled then 0 else 1
                 | none => 0)
  ∧ w.liveSessions = (match w.h.session with
                      | some s => if s.closed then 0 else 1
                      | none => 0)
  ∧ w.h.session.isSome = w.h.scheduler_task.isSome

/-! ### Shutdown-hook registration (`_register_shutdown_hooks`, lines 72-91) -/

/-- The three signal names the code mentions. -/
inductive Sig where
  | sigint
  | sigterm
  | sigbreak
deriving DecidableEq, Repr

/-- Host platform behaviour: whether the `signal` module exposes the named
constant as an attribute, and whether `loop.add_signal_handler` supports
the signal (raising `NotImplementedError` when it does not). -/
structure Platform where
  hasAttr : Sig → Bool
  addSupported : Sig → Bool

/-- A shutdown hook actually installed: either an event-loop signal
handler or the `signal.signal` synchronous fallback. -/
inductive Hook where
  | loopHandler (s : Sig)
  | syncHandler (s : Sig)
deriving DecidableEq, Repr

/-- Evaluation of the literal tuple
`(signal.SIGINT, signal.SIGTERM, signal.SIGBREAK)` (line 79): each
attribute access raises `AttributeError` when the platform's `signal`
module lacks the constant, and that exception is not caught anywhere in
`_register_shutdown_hooks`. -/
def sigTuple (p : Platform) : Except Unit (List Sig) :=
  if p.hasAttr .sigint then
    if p.hasAttr .sigterm then
      if p.hasAttr .sigbreak then .ok [.sigint, .sigterm, .sigbreak]
      else .error ()
    else .error ()
  else .error ()

/-- `_register_shutdown_hooks` (lines 72-91): iterate over the signal
tuple; for each signal try `loop.add_signal_handler`, and on
`NotImplementedError` fall back to `signal.signal` with a synchronous
handler.  An `.error` result is an exception escaping the method (and
hence escaping `configure`, which calls it at line 64). -/
def register_shutdown_hooks (p : Platform) : Except Unit (List Hook) :=
  match sigTuple p with
  | .error u => .error u
  | .ok sigs =>
    .ok (sigs.map fun s =>
      if p.addSupported s then .loopHandler s else .syncHandler s)

/-- A POSIX host (e.g. Linux): `signal.SIGINT` and `signal.SIGTERM` exist
and `add_signal_handler` works, but the `signal` module has no `SIGBREAK`
attribute. -/
def posixPlatform : Platform :=
  { hasAttr := fun s => match s with
      | .sigbreak => false
      | _ => true,
    addSupported := fun _ => true }

/-- A Windows host: all three constants exist, but asyncio's
`add_signal_handler` raises `NotImplementedError` for every signal. -/
def windowsPlatform : Platform :=
  { hasAttr := fun _ => true,
    addSupported := fun _ => false }

/-! ### The result broker and the scheduler loop -/

instance {α β : Type} [DecidableEq α] [DecidableEq β] :
    DecidableEq (Except α β) := fun x y =>
  match x, y with
  | .ok a, .ok b =>
    if h : a = b then isTrue (by rw [h])
    else isFalse (by intro hh; cases hh; exact h rfl)
  | .error a, .error b =>
    if h : a = b then isTrue (by rw [h])
    else isFalse (by intro hh; cases hh; exact h rfl)
  | .ok a, .error b => isFalse (by intro hh; cases hh)
  | .error a, .ok b => isFalse (by intro hh; cases hh)

/-- A result future (`loop.create_future()`): unresolved until exactly one
of `set_result` / `set_exception` runs, then permanently holds either the
response body or the captured transport error. -/
inductive FutureState where
  | unresolved
  | done (r : Except Nat Nat)
deriving DecidableEq, Repr

/-- `future.set_result(v)`: resolves an unresolved future; on an already
resolved future it raises `InvalidStateError` (the `.error` case). -/
def set_result (v : Nat) : FutureState → Except Unit FutureState
  | .unresolved => .ok (.done (.ok v))
  | .done _ => .error ()

/-- `future.set_exception(e)`: rejects an unresolved future; on an already
resolved future it raises `InvalidStateError` (the `.error` case). -/
def set_exception (e : Nat) : FutureState → Except Unit FutureState
  | .unresolved => .ok (.done (.error e))
  | .done _ => .error ()

/-- A queued deferred operation as the scheduler sees it: the id of its
future and the predetermined outcome of its transport call — `.ok body`
when `session.get` succeeds (body already read as bytes or text according
to the submission's `raw` flag), `.error e` when the transport raises. -/
structure Op where
  fid : Nat
  outcome : Except Nat Nat
deriving DecidableEq, Repr

/-- The body of the inner coroutine `fetch` (lines 123-154) acting on its
operation's future: the `try` block performs the transport call and on
success calls `future.set_result`; `except Exception` captures any raised
error — the transport failure, or the `InvalidStateError` from a failed
`set_result` — and calls `future.set_exception` with it.  A `.error`
result is an exception escaping `fetch` itself (possible only when the
future was already resolved, since then `set_exception` raises too). -/
def fetch (o : Op) (f : FutureState) : Except Unit FutureState :=
  match o.outcome with
  | .ok v =>
    match set_result v f with
    | .ok f2 => .ok f2
    | .error _ => set_exception 0 f
  | .error e => set_exception e f

/-- The state an operation's (fresh, unresolved) future ends in after its
`fetch` coroutine runs. -/
def execOp (o : Op) : FutureState := .done o.outcome

/-- `asyncio.wait_for(self.queue.get(), timeout=1)`: the fixed dequeue
timeout, in time units. -/
def DEQUEUE_TIMEOUT : Nat := 1

/-- The collecting loop of one scheduler cycle (lines 96-104):
`for _ in range(batch_size)` dequeue with the 1-unit timeout.  The input
stream interleaves queue arrivals: `some o` is a successful dequeue of
operation `o` (immediately wrapped in a running task and appended to the
batch), `none` is an `asyncio.TimeoutError`, which breaks out of the loop
at once; an exhausted stream behaves as a timeout.  Returns the collected
batch and the unconsumed remainder of the stream. -/
def collect : Nat → List (Option Op) → List Op × List (Option Op)
  | 0, s => ([], s)
  | _ + 1, [] => ([], [])
  | n + 1, some o :: s =>
    let r := collect n s
    (o :: r.1, r.2)
  | _ + 1, none :: s => ([], s)

/-- Observable record of one scheduler cycle: the batch-size target the
cycle collected under, the batch it executed, and the inter-batch sleep it
performed (`none` when the sleep was skipped). -/
structure Report where
  target : Nat
  batch : List Op
  slept : Option Nat
deriving DecidableEq, Repr

/-- Scheduler-side state threaded through the loop: the current
`_batch_size` target, the remaining raw RNG draws, and the log of future
resolutions performed so far (each entry: future id and the state it was
resolved to). -/
structure Sched where
  batchSize : Nat
  rng : List Nat
  resolved : List (Nat × FutureState)
deriving DecidableEq, Repr

/-- The `while True` loop of `_scheduler` (lines 93-112), run for `fuel`
iterations: collect a batch; when it is empty, loop straight back to
collecting (no execution, no redraw, no sleep); when it is non-empty,
`asyncio.gather` the batch (each operation's `fetch` resolves its own
fresh future, recorded in `resolved`), redraw `_batch_size` by
`random.randint(3, 5)`, draw a delay by `random.randint(5, 10)` and sleep
for it.  Returns the final scheduler state, one `Report` per cycle, and
the unconsumed remainder of the arrival stream. -/
def schedulerRun : Nat → Sched → List (Option Op) → Sched × List Report × List (Option Op)
  | 0, sc, s => (sc, [], s)
  | fuel + 1, sc, s =>
    if (collect sc.batchSize s).1 = [] then
      ((schedulerRun fuel sc (collect sc.batchSize s).2).1,
       ⟨sc.batchSize, [], none⟩ ::
         (schedulerRun fuel sc (collect sc.batchSize s).2).2.1,
       (schedulerRun fuel sc (collect sc.batchSize s).2).2.2)
    else
      ((schedulerRun fuel
          ⟨randint 3 5 (sc.rng.headD 0), sc.rng.drop 2,
           sc.resolved ++ (collect sc.batchSize s).1.map (fun o => (o.fid, execOp o))⟩
          (collect sc.batchSize s).2).1,
       ⟨sc.batchSize, (collect sc.batchSize s).1,
        some (randint 5 10 ((sc.rng.drop 1).headD 0))⟩ ::
         (schedulerRun fuel
            ⟨randint 3 5 (sc.rng.headD 0), sc.rng.drop 2,
             sc.resolved ++ (collect sc.batchSize s).1.map (fun o => (o.fid, execOp o))⟩
            (collect sc.batchSize s).2).2.1,
       (schedulerRun fuel
          ⟨randint 3 5 (sc.rng.headD 0), sc.rng.drop 2,
           sc.resolved ++ (collect sc.batchSize s).1.map (fun o => (o.fid, execOp o))⟩
          (collect sc.batchSize s).2).2.2)

/-- Sample operation: a submission whose transport call succeeds with
body token 10, awaited through future 1. -/
def opA : Op := ⟨1, .ok 10⟩

/-- Sample operation: a submission whose transport call fails with error
token 5, awaited through future 2. -/
def opB : Op := ⟨2, .error 5⟩

/-- Sample arrival stream: two submissions already queued, then an idle
queue (dequeue timeout). -/
def sampleStream : List (Option Op) := [some opA, some opB, none]

/-! ## Helper lemmas -/

theorem shutdown_started_after (w : World) :
    (shutdown w).h.shutdown_started = true := by
  obtain ⟨⟨cfg, lp, sd, q, sess, task, bs⟩, ls, lt, cc, clc, ini⟩ := w
  cases sd
  · cases task <;> cases sess <;> simp [shutdown] <;> split <;> simp
  · simp [shutdown]

theorem shutdown_of_started (w : World) (h : w.h.shutdown_started = true) :
    shutdown w = w := by
  simp [shutdown, h]

theorem shutdown_idem (w : World) : shutdown (shutdown w) = shutdown w :=
  shutdown_of_started _ (shutdown_started_after w)

theorem shutdown_iter_succ (w : World) (n : Nat) :
    shutdown^[n + 1] w = shutdown w := by
  induction n with
  | zero => rfl
  | succ m ih => rw [Function.iterate_succ_apply', ih, shutdown_idem]

theorem shutdown_step_cancel (w : World) :
    (shutdown w).cancelCalls ≤ w.cancelCalls + 1 := by
  obtain ⟨⟨cfg, lp, sd, q, sess, task, bs⟩, ls, lt, cc, clc, ini⟩ := w
  cases sd <;> cases task <;> cases sess <;> simp [shutdown] <;> split <;> simp

theorem shutdown_step_close (w : World) :
    (shutdown w).closeCalls ≤ w.closeCalls + 1 := by
  obtain ⟨⟨cfg, lp, sd, q, sess, task, bs⟩, ls, lt, cc, clc, ini⟩ := w
  cases sd <;> cases task <;> cases sess <;> simp [shutdown] <;> split <;> simp

theorem needsInit_after_configure (w : World) (cur r f : Nat) :
    needsInit (configure w cur r f).h cur = false := by
  cases h : needsInit w.h cur
  · simp [configure, h]
  · simp only [configure, h]
    simp [needsInit]

theorem retireOld_inits (w : World) : (retireOld w).inits = w.inits := by
  obtain ⟨⟨cfg, lp, sd, q, sess, task, bs⟩, ls, lt, cc, clc, ini⟩ := w
  cases task <;> cases sess <;> simp [retireOld]

theorem retireOld_live (w : World) (hInv : Inv w) :
    (retireOld w).liveTasks = 0 ∧ (retireOld w).liveSessions = 0 := by
  obtain ⟨h1, h2, h3⟩ := hInv
  obtain ⟨⟨cfg, lp, sd, q, sess, task, bs⟩, ls, lt, cc, clc, ini⟩ := w
  cases task with
  | none =>
    cases sess with
    | none => simp [retireOld] at h1 h2 ⊢; omega
    | some s => simp at h3
  | some t =>
    cases sess with
    | none => simp at h3
    | some s =>
      simp [retireOld] at h1 h2 ⊢
      cases ht : t.cancelled <;> cases hs : s.closed <;>
        simp [ht, hs] at h1 h2 ⊢ <;> omega

theorem Inv_configure (w : World) (cur r f : Nat) (hInv : Inv w) :
    Inv (configure w cur r f) := by
  cases h : needsInit w.h cur
  · simpa [configure, h] using hInv
  · obtain ⟨hT, hS⟩ := retireOld_live w hInv
    simp [configure, h, Inv, hT, hS]

theorem configure_skip (w : World) (cur r f : Nat)
    (h : needsInit w.h cur = false) : configure w cur r f = w := by
  simp [configure, h]

theorem shutdown_frame (w : World) :
    (shutdown w).h.is_configured = w.h.is_configured
    ∧ (shutdown w).h.queue = w.h.queue := by
  obtain ⟨⟨cfg, lp, sd, q, sess, task, bs⟩, ls, lt, cc, clc, ini⟩ := w
  cases sd <;> cases task <;> cases sess <;> simp [shutdown] <;> split <;> simp

theorem shutdown_cancels_task (w : World) (t : TaskH)
    (hs : w.h.shutdown_started = false) (ht : w.h.scheduler_task = some t) :
    (shutdown w).h.scheduler_task = some ⟨t.tid, true⟩ := by
  obtain ⟨⟨cfg, lp, sd, q, sess, task, bs⟩, ls, lt, cc, clc, ini⟩ := w
  obtain ⟨tid, tc⟩ := t
  dsimp only at hs ht
  subst hs; subst ht
  cases sess <;> simp [shutdown] <;> split <;> simp

theorem randint_bounds (lo hi r : Nat) (h : lo ≤ hi) :
    lo ≤ randint lo hi r ∧ randint lo hi r ≤ hi := by
  unfold randint
  have h2 : r % (hi - lo + 1) < hi - lo + 1 := Nat.mod_lt _ (by omega)
  omega

theorem collect_le (n : Nat) : ∀ s : List (Option Op), (collect n s).1.length ≤ n := by
  induction n with
  | zero => intro s; simp [collect]
  | succ n ih =>
    intro s
    match s with
    | [] => simp [collect]
    | none :: t => simp [collect]
    | some o :: t =>
      simp only [collect, List.length_cons]
      exact Nat.succ_le_succ (ih t)

theorem collect_take (n : Nat) :
    ∀ s : List (Option Op),
      (collect n s).1 = ((s.takeWhile fun x => x.isSome).filterMap id).take n := by
  induction n with
  | zero => intro s; simp [collect]
  | succ n ih =>
    intro s
    match s with
    | [] => simp [collect]
    | none :: t => simp [collect]
    | some o :: t => simp [collect, ih t]

theorem collect_split (n : Nat) :
    ∀ s : List (Option Op), ∃ c : List (Option Op),
      s = c ++ (collect n s).2 ∧ (collect n s).1 = c.filterMap id := by
  induction n with
  | zero => intro s; exact ⟨[], by simp [collect]⟩
  | succ n ih =>
    intro s
    match s with
    | [] => exact ⟨[], by simp [collect]⟩
    | none :: t => exact ⟨[none], by simp [collect]⟩
    | some o :: t =>
      obtain ⟨c, h1, h2⟩ := ih t
      refine ⟨some o :: c, ?_, ?_⟩
      · simpa [collect] using h1
      · simpa [collect] using h2

theorem schedulerRun_length (fuel : Nat) :
    ∀ (sc : Sched) (s : List (Option Op)),
      (schedulerRun fuel sc s).2.1.length = fuel := by
  induction fuel with
  | zero => intro sc s; rfl
  | succ n ih =>
    intro sc s
    simp only [schedulerRun]
    split <;> simp [ih]

theorem schedulerRun_resolved (fuel : Nat) :
    ∀ (sc : Sched) (s : List (Option Op)),
      (schedulerRun fuel sc s).1.resolved =
        sc.resolved ++
          ((schedulerRun fuel sc s).2.1.map Report.batch).flatten.map
            (fun o => (o.fid, execOp o)) := by
  induction fuel with
  | zero => intro sc s; simp [schedulerRun]
  | succ n ih =>
    intro sc s
    simp only [schedulerRun]
    split <;> simp [ih, List.map_append, List.append_assoc]

theorem schedulerRun_split (fuel : Nat) :
    ∀ (sc : Sched) (s : List (Option Op)), ∃ c : List (Option Op),
      s = c ++ (schedulerRun fuel sc s).2.2
      ∧ ((schedulerRun fuel sc s).2.1.map Report.batch).flatten = c.filterMap id := by
  induction fuel with
  | zero => intro sc s; exact ⟨[], by simp [schedulerRun]⟩
  | succ n ih =>
    intro sc s
    obtain ⟨c1, hc1, hb1⟩ := collect_split sc.batchSize s
    simp only [schedulerRun]
    split
    · rename_i hempty
      obtain ⟨c2, hc2, hb2⟩ := ih sc (collect sc.batchSize s).2
      refine ⟨c1 ++ c2, ?_, ?_⟩
      · rw [List.append_assoc, ← hc2, ← hc1]
      · have hfm : c1.filterMap id = [] := by rw [← hb1, hempty]
        simp [hb2, List.filterMap_append, hfm]
    · rename_i hne
      obtain ⟨c2, hc2, hb2⟩ := ih
        ⟨randint 3 5 (sc.rng.headD 0), sc.rng.drop 2,
         sc.resolved ++ (collect sc.batchSize s).1.map (fun o => (o.fid, execOp o))⟩
        (collect sc.batchSize s).2
      refine ⟨c1 ++ c2, ?_, ?_⟩
      · rw [List.append_assoc, ← hc2, ← hc1]
      · rw [List.filterMap_append, ← hb1, ← hb2]
        simp

/-! ## Claim theorems -/

/-- C2: calling `get()` on an unconfigured handler raises the
"not configured" `RuntimeError` immediately, for every url and raw-mode
flag; the state — in particular the queue and the configured flag — is
returned untouched, so nothing is enqueued and the handler is not
implicitly configured. -/
theorem get_unconfigured_fails (w : World) (url : Nat) (raw : Bool) (r fid : Nat)
    (h : w.h.is_configured = false) :
    get w url raw r fid = (w, .error .notConfigured) := by
  simp [get, h]

theorem get_unconfigured_fails_witness :
    initialWorld.h.is_configured = false ∧
      get initialWorld 0 false 0 0 = (initialWorld, .error .notConfigured) :=
  ⟨by decide, get_unconfigured_fails initialWorld 0 false 0 0 (by decide)⟩

/-- C3: `shutdown()` is idempotent and always safe to call: the first call
sets the shutdown-started guard, a repeated call is a no-op, and any
sequence of `n` `shutdown()` calls performs at most one task cancellation
and at most one session close. -/
theorem shutdown_idempotent (w : World) (n : Nat) :
    shutdown (shutdown w) = shutdown w
    ∧ (shutdown w).h.shutdown_started = true
    ∧ (shutdown^[n] w).cancelCalls ≤ w.cancelCalls + 1
    ∧ (shutdown^[n] w).closeCalls ≤ w.closeCalls + 1 := by
  refine ⟨shutdown_idem w, shutdown_started_after w, ?_, ?_⟩
  · cases n with
    | zero => simp
    | succ m => rw [shutdown_iter_succ]; exact shutdown_step_cancel w
  · cases n with
    | zero => simp
    | succ m => rw [shutdown_iter_succ]; exact shutdown_step_close w

/-- C5 counterexample: on a handler configured under loop 0 that has been
shut down, a further `configure()` under the same loop 0 returns
successfully yet leaves the shutdown-started flag still set (the
re-initialization branch is skipped because the handler is still marked
configured under the current loop), contradicting the claim that every
successful `configure()` clears shutdown-started. -/
theorem configure_after_shutdown_keeps_flag :
    (configure (shutdown (configure initialWorld 0 0 0)) 0 1 1).h.shutdown_started
      = true
    ∧ (configure (shutdown (configure initialWorld 0 0 0)) 0 1 1).h.is_configured
      = true := by
  decide

/-- C5 amended: after every `configure()` call the configured flag is set;
the shutdown-started flag is cleared exactly when the call performs
re-initialization (never configured before, or a different execution
context), and is left unchanged — in particular still set after a prior
`shutdown()` — when re-initialization is skipped. -/
theorem configure_sets_flags (w : World) (cur r f : Nat) :
    (configure w cur r f).h.is_configured = true
    ∧ (configure w cur r f).h.shutdown_started =
        (if needsInit w.h cur then false else w.h.shutdown_started) := by
  cases h : needsInit w.h cur
  · have h2 := h
    simp only [needsInit, Bool.or_eq_false_iff, Bool.not_eq_false'] at h2
    simp [configure, h, h2.1]
  · simp [configure, h]

/-- C9 (code bug): on a POSIX host, where the `signal` module has no
`SIGBREAK` attribute, evaluating the tuple
`(signal.SIGINT, signal.SIGTERM, signal.SIGBREAK)` raises an
`AttributeError` that `_register_shutdown_hooks` does not catch (only
`NotImplementedError` from `add_signal_handler` is), so hook registration
— and with it `configure()` — fails; on a host where the constants exist
but the loop rejects them (Windows), the failure is caught and the
synchronous fallback is installed for each signal, as the claim
describes. -/
theorem sigbreak_attr_crashes_hooks :
    register_shutdown_hooks posixPlatform = .error ()
    ∧ register_shutdown_hooks windowsPlatform =
        .ok [.syncHandler .sigint, .syncHandler .sigterm, .syncHandler .sigbreak] :=
  ⟨rfl, rfl⟩

/-- C4: `configure()` is idempotent under an unchanged execution context —
the second of two `configure()` calls under the same loop is a complete
no-op, so full re-initialization runs at most once across the pair; it
runs only when the handler was never configured or the loop changed
(`needsInit`); and whenever a call does re-initialize, exactly one live
scheduler task and one open transport session remain (the previous ones
having been retired first), with the no-leak accounting invariant
preserved. -/
theorem configure_idempotent_same_loop (w : World) (cur r1 f1 r2 f2 : Nat)
    (hInv : Inv w) :
    configure (configure w cur r1 f1) cur r2 f2 = configure w cur r1 f1
    ∧ (configure (configure w cur r1 f1) cur r2 f2).inits ≤ w.inits + 1
    ∧ (needsInit w.h cur = false → configure w cur r1 f1 = w)
    ∧ (needsInit w.h cur = true →
        (configure w cur r1 f1).liveTasks = 1
        ∧ (configure w cur r1 f1).liveSessions = 1)
    ∧ Inv (configure w cur r1 f1) := by
  have hid : configure (configure w cur r1 f1) cur r2 f2 = configure w cur r1 f1 :=
    configure_skip _ cur r2 f2 (needsInit_after_configure w cur r1 f1)
  have hinits : (configure w cur r1 f1).inits ≤ w.inits + 1 := by
    cases h : needsInit w.h cur
    · simp [configure_skip w cur r1 f1 h]
    · simp only [configure, h]
      simp [retireOld_inits]
  refine ⟨hid, ?_, fun h => configure_skip w cur r1 f1 h, ?_, Inv_configure w cur r1 f1 hInv⟩
  · rw [hid]; exact hinits
  · intro h
    obtain ⟨hT, hS⟩ := retireOld_live w hInv
    simp only [configure, h]
    simp [hT, hS]

theorem configure_idempotent_same_loop_witness :
    configure (configure initialWorld 0 0 0) 0 1 1 = configure initialWorld 0 0 0
    ∧ (configure (configure initialWorld 0 0 0) 0 1 1).inits ≤ initialWorld.inits + 1
    ∧ (needsInit initialWorld.h 0 = false → configure initialWorld 0 0 0 = initialWorld)
    ∧ (needsInit initialWorld.h 0 = true →
        (configure initialWorld 0 0 0).liveTasks = 1
        ∧ (configure initialWorld 0 0 0).liveSessions = 1)
    ∧ Inv (configure initialWorld 0 0 0) :=
  configure_idempotent_same_loop initialWorld 0 0 0 1 1 ⟨rfl, rfl, rfl⟩

/-- C10: `shutdown()` leaves the configured flag (and the queue attribute)
unchanged: on a configured handler, a `get()` after `shutdown()` does not
raise the "not configured" error and still enqueues its deferred
operation onto the queue — even though the scheduler task that would
consume it was cancelled by the shutdown. -/
theorem shutdown_preserves_configured (w : World) (url : Nat) (raw : Bool)
    (r fid : Nat) (q : List Pending)
    (hc : w.h.is_configured = true) (hq : w.h.queue = some q) :
    (shutdown w).h.is_configured = true
    ∧ (get (shutdown w) url raw r fid).2 = .ok ⟨fid, url, chooseAgent r, raw⟩
    ∧ (get (shutdown w) url raw r fid).1.h.queue =
        some (q ++ [⟨fid, url, chooseAgent r, raw⟩])
    ∧ (∀ v : World, (shutdown v).h.is_configured = v.h.is_configured)
    ∧ (∀ t : TaskH, w.h.shutdown_started = false → w.h.scheduler_task = some t →
        (shutdown w).h.scheduler_task = some ⟨t.tid, true⟩) := by
  have hf := shutdown_frame w
  have hc2 : (shutdown w).h.is_configured = true := by rw [hf.1]; exact hc
  have hq2 : (shutdown w).h.queue = some q := by rw [hf.2]; exact hq
  refine ⟨hc2, ?_, ?_, fun v => (shutdown_frame v).1,
    fun t hs ht => shutdown_cancels_task w t hs ht⟩
  · simp [get, hc2, hq2]
  · simp [get, hc2, hq2]

theorem shutdown_preserves_configured_witness :
    (shutdown (configure initialWorld 0 0 0)).h.is_configured = true
    ∧ (get (shutdown (configure initialWorld 0 0 0)) 1 false 0 7).2 =
        .ok ⟨7, 1, chooseAgent 0, false⟩
    ∧ (get (shutdown (configure initialWorld 0 0 0)) 1 false 0 7).1.h.queue =
        some ([] ++ [⟨7, 1, chooseAgent 0, false⟩])
    ∧ (∀ v : World, (shutdown v).h.is_configured = v.h.is_configured)
    ∧ (∀ t : TaskH, (configure initialWorld 0 0 0).h.shutdown_started = false →
        (configure initialWorld 0 0 0).h.scheduler_task = some t →
        (shutdown (configure initialWorld 0 0 0)).h.scheduler_task = some ⟨t.tid, true⟩) :=
  shutdown_preserves_configured (configure initialWorld 0 0 0) 1 false 0 7 []
    (by decide) (by decide)

theorem schedulerRun_targets (fuel : Nat) :
    ∀ (sc : Sched) (s : List (Option Op)), 3 ≤ sc.batchSize → sc.batchSize ≤ 5 →
      ∀ rep ∈ (schedulerRun fuel sc s).2.1,
        3 ≤ rep.target ∧ rep.target ≤ 5 ∧ rep.batch.length ≤ rep.target := by
  induction fuel with
  | zero => intro sc s h3 h5 rep hrep; simp [schedulerRun] at hrep
  | succ n ih =>
    intro sc s h3 h5 rep hrep
    simp only [schedulerRun] at hrep
    split at hrep
    · rcases List.mem_cons.mp hrep with h | h
      · subst h; exact ⟨h3, h5, by simp⟩
      · exact ih sc _ h3 h5 rep h
    · rcases List.mem_cons.mp hrep with h | h
      · subst h; exact ⟨h3, h5, collect_le _ _⟩
      · exact ih _ _ (randint_bounds 3 5 _ (by omega)).1
          (randint_bounds 3 5 _ (by omega)).2 rep h

theorem schedulerRun_sleeps (fuel : Nat) :
    ∀ (sc : Sched) (s : List (Option Op)),
      ∀ rep ∈ (schedulerRun fuel sc s).2.1,
        (rep.slept = none ↔ rep.batch = [])
        ∧ ∀ d : Nat, rep.slept = some d → 5 ≤ d ∧ d ≤ 10 := by
  induction fuel with
  | zero => intro sc s rep hrep; simp [schedulerRun] at hrep
  | succ n ih =>
    intro sc s rep hrep
    simp only [schedulerRun] at hrep
    split at hrep
    · rcases List.mem_cons.mp hrep with h | h
      · subst h; exact ⟨by simp, by simp⟩
      · exact ih sc _ rep h
    · rename_i hne
      rcases List.mem_cons.mp hrep with h | h
      · subst h
        refine ⟨by simpa using hne, ?_⟩
        intro d hd
        have hd2 : randint 5 10 ((sc.rng.drop 1).headD 0) = d := by simpa using hd
        subst hd2
        exact randint_bounds 5 10 _ (by omega)
      · exact ih _ _ rep h

/-- C1: every operation the scheduler consumes from the queue resolves its
Result Broker exactly once — the resolution log of a whole scheduler run
contains exactly one entry for its future, holding its own transport
outcome — provided each submission created a fresh future (distinct
future ids in the arrival stream).  Moreover that single transition is
from unresolved to resolved (`fetch` on the fresh future), and a resolved
broker is immutable: any further `set_result` / `set_exception` on it
raises `InvalidStateError`. -/
theorem broker_resolves_exactly_once (fuel sz : Nat) (rng : List Nat)
    (stream : List (Option Op)) (o : Op)
    (hnd : ((stream.filterMap id).map Op.fid).Nodup)
    (ho : o ∈ ((schedulerRun fuel ⟨sz, rng, []⟩ stream).2.1.map Report.batch).flatten) :
    ((schedulerRun fuel ⟨sz, rng, []⟩ stream).1.resolved.filter
        (fun p => p.1 == o.fid)).length = 1
    ∧ (o.fid, FutureState.done o.outcome) ∈
        (schedulerRun fuel ⟨sz, rng, []⟩ stream).1.resolved
    ∧ fetch o .unresolved = .ok (.done o.outcome)
    ∧ (∀ v e : Nat, set_result v (.done o.outcome) = .error ()
        ∧ set_exception e (.done o.outcome) = .error ()) := by
  obtain ⟨c, hc, hj⟩ := schedulerRun_split fuel ⟨sz, rng, []⟩ stream
  have hres := schedulerRun_resolved fuel ⟨sz, rng, []⟩ stream
  have hndJ :
      ((((schedulerRun fuel ⟨sz, rng, []⟩ stream).2.1.map Report.batch).flatten).map
        Op.fid).Nodup := by
    rw [hj]
    rw [hc, List.filterMap_append, List.map_append] at hnd
    exact hnd.of_append_left
  refine ⟨?_, ?_, ?_, fun v e => ⟨rfl, rfl⟩⟩
  · rw [hres]
    rw [show (⟨sz, rng, []⟩ : Sched).resolved = [] from rfl, List.nil_append]
    rw [List.filter_map, List.length_map, ← List.countP_eq_length_filter]
    have hcnt :
        (((schedulerRun fuel ⟨sz, rng, []⟩ stream).2.1.map Report.batch).flatten.countP
          ((fun p => p.1 == o.fid) ∘ fun x => (x.fid, execOp x))) =
        ((((schedulerRun fuel ⟨sz, rng, []⟩ stream).2.1.map Report.batch).flatten.map
          Op.fid).count o.fid) := by
      rw [List.count, List.countP_map]
      rfl
    rw [hcnt]
    exact List.count_eq_one_of_mem hndJ (List.mem_map_of_mem _ ho)
  · rw [hres]
    exact List.mem_append_right _ (List.mem_map_of_mem _ ho)
  · cases hout : o.outcome <;> simp [fetch, set_result, set_exception, hout]

theorem broker_resolves_exactly_once_witness :
    ((schedulerRun 1 ⟨3, [], []⟩ sampleStream).1.resolved.filter
        (fun p => p.1 == opA.fid)).length = 1
    ∧ (opA.fid, FutureState.done opA.outcome) ∈
        (schedulerRun 1 ⟨3, [], []⟩ sampleStream).1.resolved
    ∧ fetch opA .unresolved = .ok (.done opA.outcome)
    ∧ (∀ v e : Nat, set_result v (.done opA.outcome) = .error ()
        ∧ set_exception e (.done opA.outcome) = .error ()) :=
  broker_resolves_exactly_once 1 3 [] sampleStream opA (by decide) (by decide)

/-- C6: a transport failure in one operation of a batch is captured inside
that operation's `fetch` and attached to that operation's broker only: the
coroutine never lets the exception escape (`fetch` on the fresh future
returns `.ok`, never `.error`, whatever the outcome), every consumed
operation — the failing one and its siblings alike — ends resolved with
its own outcome in the run's log, and the scheduler loop is not
terminated: a run always performs its full number of cycles. -/
theorem transport_failure_isolated (fuel : Nat) (sc : Sched)
    (s : List (Option Op)) (o : Op)
    (ho : o ∈ ((schedulerRun fuel sc s).2.1.map Report.batch).flatten) :
    fetch o .unresolved = .ok (.done o.outcome)
    ∧ (o.fid, FutureState.done o.outcome) ∈ (schedulerRun fuel sc s).1.resolved
    ∧ (schedulerRun fuel sc s).2.1.length = fuel := by
  refine ⟨?_, ?_, schedulerRun_length fuel sc s⟩
  · cases hout : o.outcome <;> simp [fetch, set_result, set_exception, hout]
  · rw [schedulerRun_resolved]
    exact List.mem_append_right _ (List.mem_map_of_mem _ ho)

theorem transport_failure_isolated_witness :
    fetch opB .unresolved = .ok (.done opB.outcome)
    ∧ (opB.fid, FutureState.done opB.outcome) ∈
        (schedulerRun 1 ⟨3, [], []⟩ sampleStream).1.resolved
    ∧ (schedulerRun 1 ⟨3, [], []⟩ sampleStream).2.1.length = 1 :=
  transport_failure_isolated 1 ⟨3, [], []⟩ sampleStream opB (by decide)

/-- C7: the batch-size target is drawn by `random.randint(3, 5)` — a value
in `{3, 4, 5}` — at configure time (scheduler start) and stays in that
range after every redraw, so in every scheduling cycle of a run the target
is in `{3, 4, 5}` and the executed batch is no larger than the target;
collecting takes consecutively dequeued operations up to the target and,
on the first dequeue timeout, stops immediately with the partial (possibly
empty) batch — the batch is exactly the timeout-free prefix of the arrival
stream truncated at the target. -/
theorem batch_target_and_collection (wc : World) (cur r f n fuel : Nat)
    (s : List (Option Op)) (sc : Sched) (rep : Report)
    (hneed : needsInit wc.h cur = true)
    (h3 : 3 ≤ sc.batchSize) (h5 : sc.batchSize ≤ 5)
    (hrep : rep ∈ (schedulerRun fuel sc s).2.1) :
    (configure wc cur r f).h.batch_size = randint 3 5 r
    ∧ 3 ≤ randint 3 5 r ∧ randint 3 5 r ≤ 5
    ∧ (collect n s).1 = ((s.takeWhile fun x => x.isSome).filterMap id).take n
    ∧ (collect n s).1.length ≤ n
    ∧ 3 ≤ rep.target ∧ rep.target ≤ 5 ∧ rep.batch.length ≤ rep.target := by
  obtain ⟨ht1, ht2, ht3⟩ := schedulerRun_targets fuel sc s h3 h5 rep hrep
  refine ⟨?_, (randint_bounds 3 5 r (by omega)).1, (randint_bounds 3 5 r (by omega)).2,
    collect_take n s, collect_le n s, ht1, ht2, ht3⟩
  simp [configure, hneed]

theorem batch_target_and_collection_witness :
    (configure initialWorld 0 0 0).h.batch_size = randint 3 5 0
    ∧ 3 ≤ randint 3 5 0 ∧ randint 3 5 0 ≤ 5
    ∧ (collect 2 sampleStream).1 =
        ((sampleStream.takeWhile fun x => x.isSome).filterMap id).take 2
    ∧ (collect 2 sampleStream).1.length ≤ 2
    ∧ 3 ≤ (⟨3, [opA, opB], some 5⟩ : Report).target
    ∧ (⟨3, [opA, opB], some 5⟩ : Report).target ≤ 5
    ∧ (⟨3, [opA, opB], some 5⟩ : Report).batch.length ≤
        (⟨3, [opA, opB], some 5⟩ : Report).target :=
  batch_target_and_collection initialWorld 0 0 0 2 1 sampleStream ⟨3, [], []⟩
    ⟨3, [opA, opB], some 5⟩ (by decide) (by decide) (by decide) (by decide)

/-- C8: in every scheduling cycle of a run, the inter-batch sleep is
skipped exactly when the cycle collected zero operations, and whenever a
sleep happens its duration — drawn by `random.randint(5, 10)` — lies in
the interval `[5, 10]`. -/
theorem sleep_bounds_and_skip (fuel : Nat) (sc : Sched) (s : List (Option Op))
    (rep : Report)
    (hrep : rep ∈ (schedulerRun fuel sc s).2.1) :
    (rep.slept = none ↔ rep.batch = [])
    ∧ ∀ d : Nat, rep.slept = some d → 5 ≤ d ∧ d ≤ 10 :=
  schedulerRun_sleeps fuel sc s rep hrep

theorem sleep_bounds_and_skip_witness :
    ((⟨3, [opA, opB], some 5⟩ : Report).slept = none
      ↔ (⟨3, [opA, opB], some 5⟩ : Report).batch = [])
    ∧ ∀ d : Nat, (⟨3, [opA, opB], some 5⟩ : Report).slept = some d →
        5 ≤ d ∧ d ≤ 10 :=
  sleep_bounds_and_skip 1 ⟨3, [], []⟩ sampleStream ⟨3, [opA, opB], some 5⟩ (by decide)

end RequestHandler
